import Mathlib

/-!
Verification of the shape-to-path generation layer of a 2D shape-sprite
library (source: src/shapes.rs).  The library converts declarative shape
descriptions (rectangle, circle, ellipse, polygon) into 2D vector paths
that an external tessellation engine later turns into meshes.

Embedding choices:
* Coordinates are rationals (`ℚ`), modelling the exact arithmetic the code
  performs on f32 values (negation, halving and addition of the inputs).
* A path is a list of contours (`SubPath`).  The external path builder is
  modelled at the contour level: rectangles and polygons expand into
  vertex polylines exactly as the builder does, while circular and
  elliptical contours are kept as parameterised contours, since their
  polygonal approximation is owned by the external tessellation library
  and out of scope of the spec.
-/

namespace BevyLyon

/-- A 2D point with rational coordinates, modelling a tessellation-library
point with f32 coordinates. -/
structure Point where
  x : ℚ
  y : ℚ
deriving DecidableEq

/-- A 2D engine vector (the host engine type used for shape fields). -/
structure Vec2 where
  x : ℚ
  y : ℚ
deriving DecidableEq

/-- Source: `Vec2::zero()`. -/
def Vec2.zero : Vec2 := ⟨0, 0⟩

/-- Source: `Vec2::one()`. -/
def Vec2.one : Vec2 := ⟨1, 1⟩

/-- Modelled from the spec: the conversion glue from engine 2D vectors to
tessellation-library points (conversions.rs, `ToLyonPoint`, not under
src/) preserves both coordinates. -/
def Vec2.to_lyon_point (v : Vec2) : Point := ⟨v.x, v.y⟩

/-- Modelled from the spec: the conversion glue from engine 2D vectors to
tessellation-library vectors (conversions.rs, `ToLyonVector`, not under
src/) preserves both coordinates. -/
def Vec2.to_lyon_vector (v : Vec2) : Vec2 := v

/-- Winding direction passed to the path builder. -/
inductive Winding where
  | positive
  | negative
deriving DecidableEq

/-- One contour of a path: either a vertex polyline (open or closed), or a
parameterised circular or elliptical contour whose polygonal approximation
is owned by the external tessellation library. -/
inductive SubPath where
  | polyline (points : List Point) (closed : Bool)
  | circle (center : Point) (radius : ℚ) (winding : Winding)
  | ellipse (center : Point) (radii : Vec2) (xRotation : ℚ) (winding : Winding)
deriving DecidableEq

/-- Model of the external path builder method `add_polygon`: an empty point
list emits no contour; otherwise it begins at the first point, lines to
each following point in order and ends the contour with the given closed
flag. -/
def addPolygon (points : List Point) (closed : Bool) : List SubPath :=
  if points.isEmpty then [] else [SubPath.polyline points closed]

/-- Model of the external path builder method `add_rectangle` on the
rectangle with the given origin (min corner) and size: with positive
winding it emits the four corners counter-clockwise (for positive sizes)
starting at the min corner, as a closed polygon; with negative winding the
reversed tour. -/
def addRectangle (origin : Point) (width height : ℚ) (winding : Winding) :
    List SubPath :=
  match winding with
  | .positive =>
      addPolygon
        [origin, ⟨origin.x + width, origin.y⟩,
         ⟨origin.x + width, origin.y + height⟩,
         ⟨origin.x, origin.y + height⟩] true
  | .negative =>
      addPolygon
        [⟨origin.x, origin.y + height⟩,
         ⟨origin.x + width, origin.y + height⟩,
         ⟨origin.x + width, origin.y⟩, origin] true

/-- Model of the external path builder method `add_circle` at the contour
level: one closed circular contour with the given center, radius and
winding. -/
def addCircle (center : Point) (radius : ℚ) (winding : Winding) :
    List SubPath :=
  [SubPath.circle center radius winding]

/-- Model of the external path builder method `add_ellipse` at the contour
level: one closed elliptical contour with the given center, axis radii,
x-rotation angle and winding. -/
def addEllipse (center : Point) (radii : Vec2) (xRotation : ℚ)
    (winding : Winding) : List SubPath :=
  [SubPath.ellipse center radii xRotation winding]

/-- The vertices of a contour (curved contours carry no explicit
vertices; their approximation is the tessellation library concern). -/
def SubPath.vertices : SubPath → List Point
  | .polyline ps _ => ps
  | .circle _ _ _ => []
  | .ellipse _ _ _ _ => []

/-- Whether a contour is closed (fillable). -/
def SubPath.isClosed : SubPath → Bool
  | .polyline _ c => c
  | .circle _ _ _ => true
  | .ellipse _ _ _ _ => true

/-- The implicit closing edge of a vertex list: from the last point back to
the first, present only when there are at least two points. -/
def closingEdge : List Point → List (Point × Point)
  | [] => []
  | [_] => []
  | p :: q :: rest => [((q :: rest).getLast (List.cons_ne_nil q rest), p)]

/-- The straight edges of a polyline: consecutive pairs, plus the implicit
closing edge when the contour is closed. -/
def polylineEdges (ps : List Point) (closed : Bool) : List (Point × Point) :=
  ps.zip ps.tail ++ if closed then closingEdge ps else []

/-- The straight edges of a contour (curved contours carry none). -/
def SubPath.edges : SubPath → List (Point × Point)
  | .polyline ps c => polylineEdges ps c
  | .circle _ _ _ => []
  | .ellipse _ _ _ _ => []

/-- All vertices of a path, contour by contour. -/
def pathVertices (path : List SubPath) : List Point :=
  path.flatMap SubPath.vertices

/-- All straight edges of a path, contour by contour. -/
def pathEdges (path : List SubPath) : List (Point × Point) :=
  path.flatMap SubPath.edges

/-- The 2D cross product of two points taken as vectors. -/
def cross (a b : Point) : ℚ := a.x * b.y - a.y * b.x

/-- Twice the signed (shoelace) area of the closed tour of a vertex list:
positive exactly when the tour is counter-clockwise. -/
def signedArea2 (ps : List Point) : ℚ :=
  ((ps.zip ps.tail) ++ closingEdge ps).foldr (fun e acc => cross e.1 e.2 + acc) 0

/-- The begin point of the first contour of a path, when one exists. -/
def pathOriginPoint (path : List SubPath) : Option Point :=
  match path with
  | SubPath.polyline (q :: _) _ :: _ => some q
  | _ => none

/-! ## The shape data model (src/shapes.rs) -/

/-- Source lines 21-28: where the origin, or pivot, of a `Rectangle` is
positioned. -/
inductive RectangleOrigin where
  | Center
  | BottomLeft
  | BottomRight
  | TopRight
  | TopLeft
deriving DecidableEq

/-- Source lines 30-34: `RectangleOrigin::default()` is `Center`. -/
def RectangleOrigin.default : RectangleOrigin := .Center

/-- Source lines 36-41. -/
structure Rectangle where
  width : ℚ
  height : ℚ
  origin : RectangleOrigin
deriving DecidableEq

/-- Source lines 43-51: `Rectangle::default()`. -/
def Rectangle.default : Rectangle :=
  { width := 1, height := 1, origin := RectangleOrigin.default }

/-- Source lines 64-71: the local origin point of the rectangle path,
computed from the origin variant inside `Rectangle::generate_sprite`. -/
def Rectangle.originPoint (self : Rectangle) : Point :=
  match self.origin with
  | .Center => ⟨-self.width / 2, -self.height / 2⟩
  | .BottomLeft => ⟨0, 0⟩
  | .BottomRight => ⟨-self.width, 0⟩
  | .TopRight => ⟨-self.width, -self.height⟩
  | .TopLeft => ⟨0, -self.height⟩

/-- Source lines 73-78: the path built inside `Rectangle::generate_sprite`:
`add_rectangle` on the rect with origin `originPoint` and size
(width, height), positive winding. -/
def Rectangle.generate_path (self : Rectangle) : List SubPath :=
  addRectangle self.originPoint self.width self.height Winding.positive

/-- The four corner vertices the rectangle path consists of, starting at
the computed origin point. -/
def Rectangle.corners (self : Rectangle) : List Point :=
  [self.originPoint,
   ⟨self.originPoint.x + self.width, self.originPoint.y⟩,
   ⟨self.originPoint.x + self.width, self.originPoint.y + self.height⟩,
   ⟨self.originPoint.x, self.originPoint.y + self.height⟩]

/-- Source lines 86-93. -/
structure Circle where
  radius : ℚ
  center : Vec2
deriving DecidableEq

/-- Source lines 95-102: `Circle::default()`. -/
def Circle.default : Circle := { radius := 1, center := Vec2.zero }

/-- Source lines 115-117: the path built inside `Circle::generate_sprite`:
`add_circle` at the converted center, with the radius and positive
winding. -/
def Circle.generate_path (self : Circle) : List SubPath :=
  addCircle self.center.to_lyon_point self.radius Winding.positive

/-- Source lines 125-131. -/
structure Ellipse where
  radii : Vec2
  center : Vec2
deriving DecidableEq

/-- Source lines 133-140: `Ellipse::default()`. -/
def Ellipse.default : Ellipse := { radii := Vec2.one, center := Vec2.zero }

/-- Source lines 153-160: the path built inside `Ellipse::generate_sprite`:
`add_ellipse` at the converted center, with the converted radii vector,
zero angle and positive winding. -/
def Ellipse.generate_path (self : Ellipse) : List SubPath :=
  addEllipse self.center.to_lyon_point self.radii.to_lyon_vector 0
    Winding.positive

/-- Source lines 168-172. -/
structure Polygon where
  points : List Vec2
  closed : Bool
deriving DecidableEq

/-- Source lines 174-181: `Polygon::default()`. -/
def Polygon.default : Polygon := { points := [], closed := true }

/-- Source lines 194-198: the point list of the polygon converted to
tessellation-library points, in insertion order. -/
def Polygon.lyonPoints (self : Polygon) : List Point :=
  self.points.map Vec2.to_lyon_point

/-- Source lines 194-206: the path built inside `Polygon::generate_sprite`:
the points are converted in order and handed to `add_polygon` together
with the closed flag. -/
def Polygon.generate_path (self : Polygon) : List SubPath :=
  addPolygon self.lyonPoints self.closed

/-! ## The sprite-generation layer

`generate_sprite` (one per shape) builds the path above, tessellates it
with the externally supplied tessellator and mode, and hands the resulting
buffers to the asset registry.  The collaborators missing from src/ are
modelled from the spec below. -/

/-- Modelled from the spec: an opaque material reference
(`Handle<ColorMaterial>`), treated as an identifier. -/
abbrev MaterialHandle : Type := Nat

/-- Modelled from the spec: the tessellation mode select, a fill or stroke
mode handed to the tessellation engine (lib.rs, not under src/). -/
inductive TessellationMode where
  | fill
  | stroke
deriving DecidableEq

/-- Modelled from the spec: a world transform placing the sprite. -/
structure Transform where
  translation : Vec2
deriving DecidableEq

/-- Modelled from the spec: the triangulated vertex/index buffer pair
produced by the tessellation engine (`Buffers`, lib.rs, not under
src/). -/
structure Buffers where
  vertices : List Point
  indices : List Nat
deriving DecidableEq

/-- Modelled from the spec: the renderable sprite entity built from a
mesh, a material reference and a world transform (`SpriteBundle`). -/
structure SpriteBundle where
  mesh : Buffers
  material : MaterialHandle
  transform : Transform

/-- Modelled from the spec: `create_sprite` (lib.rs, not under src/), the
asset-registry glue turning buffers plus a material reference into a
renderable sprite entity at a given transform, registering the mesh in the
asset store. -/
def create_sprite (material : MaterialHandle) (meshes : List Buffers)
    (buffers : Buffers) (transform : Transform) :
    SpriteBundle × List Buffers :=
  (⟨buffers, material, transform⟩, meshes ++ [buffers])

/-- A tessellation engine: a black-box function from a path and a mode to
buffers, standing for `Tessellator` plus `ShapeSprite::tessellate`. -/
abbrev Tessellator : Type := List SubPath → TessellationMode → Buffers

/-- Source lines 53-84: `Rectangle::generate_sprite`. -/
def Rectangle.generate_sprite (self : Rectangle) (material : MaterialHandle)
    (meshes : List Buffers) (tessellator : Tessellator)
    (mode : TessellationMode) (transform : Transform) :
    SpriteBundle × List Buffers :=
  let path := self.generate_path
  let buffers := tessellator path mode
  create_sprite material meshes buffers transform

/-- Source lines 104-123: `Circle::generate_sprite`. -/
def Circle.generate_sprite (self : Circle) (material : MaterialHandle)
    (meshes : List Buffers) (tessellator : Tessellator)
    (mode : TessellationMode) (transform : Transform) :
    SpriteBundle × List Buffers :=
  let path := self.generate_path
  let buffers := tessellator path mode
  create_sprite material meshes buffers transform

/-- Source lines 142-166: `Ellipse::generate_sprite`. -/
def Ellipse.generate_sprite (self : Ellipse) (material : MaterialHandle)
    (meshes : List Buffers) (tessellator : Tessellator)
    (mode : TessellationMode) (transform : Transform) :
    SpriteBundle × List Buffers :=
  let path := self.generate_path
  let buffers := tessellator path mode
  create_sprite material meshes buffers transform

/-- Source lines 183-211: `Polygon::generate_sprite`. -/
def Polygon.generate_sprite (self : Polygon) (material : MaterialHandle)
    (meshes : List Buffers) (tessellator : Tessellator)
    (mode : TessellationMode) (transform : Transform) :
    SpriteBundle × List Buffers :=
  let path := self.generate_path
  let buffers := tessellator path mode
  create_sprite material meshes buffers transform

/-- The documented origin-point formula from the spec, stated verbatim for
comparison with the code: Center gives (-width/2, -height/2), BottomLeft
gives (0, 0), BottomRight gives (-width, 0), TopRight gives
(-width, -height), TopLeft gives (0, -height). -/
def specRectOriginFormula (width height : ℚ) : RectangleOrigin → Point
  | .Center => ⟨-width / 2, -height / 2⟩
  | .BottomLeft => ⟨0, 0⟩
  | .BottomRight => ⟨-width, 0⟩
  | .TopRight => ⟨-width, -height⟩
  | .TopLeft => ⟨0, -height⟩

/-- The point of the contour the chosen origin variant names, read off a
corner list laid out as min, (max x, min y), max, (min x, max y): the
center of the contour for `Center`, otherwise the named corner. -/
def rectAnchor (o : RectangleOrigin) (ps : List Point) : Point :=
  match o with
  | .Center => ⟨((ps.getD 0 ⟨0, 0⟩).x + (ps.getD 2 ⟨0, 0⟩).x) / 2,
                ((ps.getD 0 ⟨0, 0⟩).y + (ps.getD 2 ⟨0, 0⟩).y) / 2⟩
  | .BottomLeft => ps.getD 0 ⟨0, 0⟩
  | .BottomRight => ps.getD 1 ⟨0, 0⟩
  | .TopRight => ps.getD 2 ⟨0, 0⟩
  | .TopLeft => ps.getD 3 ⟨0, 0⟩

/-! ## Helper lemmas -/

/-- The rectangle path is the single closed polyline through the four
corners. -/
theorem Rectangle.generate_path_eq_corners (r : Rectangle) :
    r.generate_path = [SubPath.polyline r.corners true] := rfl

/-- Twice the signed area of the corner tour of any rectangle is
2 * width * height. -/
theorem signedArea2_corners (r : Rectangle) :
    signedArea2 r.corners = 2 * r.width * r.height := by
  simp [signedArea2, Rectangle.corners, closingEdge, cross, List.zip]
  ring

/-- A nonempty polygon converts to a nonempty point list. -/
theorem Polygon.lyonPoints_ne_nil (p : Polygon) (h : p.points ≠ []) :
    p.lyonPoints ≠ [] := by
  simpa [Polygon.lyonPoints] using h

/-- On a list of at least two points, the implicit closing edge runs from
the last point back to the first. -/
theorem closingEdge_pair (l : List Point) (h : l ≠ []) (h2 : 2 ≤ l.length) :
    closingEdge l = [(l.getLast h, l.head h)] := by
  match l with
  | [] => exact absurd rfl h
  | [_] => simp at h2
  | p :: q :: rest => simp [closingEdge, List.getLast_cons]

/-! ## Claim theorems -/

/-- C1: For every Rectangle (any width, any height) and every
RectangleOrigin variant, the local origin point of the generated rectangle
path — the begin point of its contour — equals exactly the documented
formula: Center gives (-width/2, -height/2), BottomLeft gives (0, 0),
BottomRight gives (-width, 0), TopRight gives (-width, -height), TopLeft
gives (0, -height). -/
theorem rectangle_origin_matches_formula (r : Rectangle) :
    pathOriginPoint r.generate_path =
      some (specRectOriginFormula r.width r.height r.origin) ∧
    r.originPoint = specRectOriginFormula r.width r.height r.origin := by
  obtain ⟨w, h, o⟩ := r
  cases o <;> exact ⟨rfl, rfl⟩

/-- C2: For every Rectangle (with the positive width and height the data
model prescribes) and every RectangleOrigin variant, the generated path is
one closed contour of exactly 4 vertices, wound counter-clockwise
(positive signed area), and positioned so that the chosen origin point of
the rectangle — its center or the named corner — lies at local (0, 0). -/
theorem rectangle_path_invariant (r : Rectangle)
    (hw : 0 < r.width) (hh : 0 < r.height) :
    r.generate_path = [SubPath.polyline r.corners true] ∧
    r.corners.length = 4 ∧
    (∀ s ∈ r.generate_path, s.isClosed = true) ∧
    0 < signedArea2 r.corners ∧
    rectAnchor r.origin r.corners = ⟨0, 0⟩ := by
  refine ⟨Rectangle.generate_path_eq_corners r, rfl, ?_, ?_, ?_⟩
  · intro s hs
    rw [Rectangle.generate_path_eq_corners] at hs
    simp only [List.mem_singleton] at hs
    simp [hs, SubPath.isClosed]
  · rw [signedArea2_corners]
    have := mul_pos hw hh
    linarith
  · obtain ⟨w, h, o⟩ := r
    cases o
    case Center =>
      simp [rectAnchor, Rectangle.corners, Rectangle.originPoint,
        Point.mk.injEq]
      constructor <;> ring
    all_goals
      simp [rectAnchor, Rectangle.corners, Rectangle.originPoint,
        Point.mk.injEq]

/-- Witness for C2 at the Rectangle of width 2, height 4, origin Center. -/
theorem rectangle_path_invariant_witness :
    (0 : ℚ) < 2 ∧ (0 : ℚ) < 4 ∧
    (Rectangle.mk 2 4 RectangleOrigin.Center).generate_path =
      [SubPath.polyline (Rectangle.mk 2 4 RectangleOrigin.Center).corners
        true] ∧
    0 < signedArea2 (Rectangle.mk 2 4 RectangleOrigin.Center).corners :=
  ⟨by norm_num, by norm_num,
   (rectangle_path_invariant ⟨2, 4, .Center⟩ (by norm_num) (by norm_num)).1,
   (rectangle_path_invariant ⟨2, 4, .Center⟩ (by norm_num)
     (by norm_num)).2.2.2.1⟩

/-- C3 counterexample: the default Polygon has an empty point list, and its
generated path contains no contour at all, so it is not a single contour
visiting the given points. -/
theorem polygon_empty_counterexample :
    Polygon.default.points = [] ∧ Polygon.default.closed = true ∧
    Polygon.default.generate_path = [] ∧
    Polygon.default.generate_path.length ≠ 1 := by
  refine ⟨rfl, rfl, rfl, ?_⟩
  simp [Polygon.default, Polygon.generate_path, Polygon.lyonPoints,
    addPolygon]

/-- C3 (amended): for every Polygon with a nonempty point list, the
generated path is a single contour visiting the given points in insertion
order; the contour is closed (fillable) exactly when the closed flag is
true; its straight edges are the consecutive point pairs plus, when
closed, the implicit closing edge, which — whenever there are at least two
points — connects the last point back to the first; when the flag is
false no such implicit edge exists. -/
theorem polygon_path_single_contour (p : Polygon) (h : p.points ≠ []) :
    p.generate_path = [SubPath.polyline p.lyonPoints p.closed] ∧
    pathVertices p.generate_path = p.lyonPoints ∧
    (p.generate_path.all SubPath.isClosed) = p.closed ∧
    pathEdges p.generate_path =
      p.lyonPoints.zip p.lyonPoints.tail ++
        (if p.closed then closingEdge p.lyonPoints else []) ∧
    (2 ≤ p.points.length →
      closingEdge p.lyonPoints =
        [(p.lyonPoints.getLast (p.lyonPoints_ne_nil h),
          p.lyonPoints.head (p.lyonPoints_ne_nil h))]) := by
  have hne : p.lyonPoints ≠ [] := p.lyonPoints_ne_nil h
  have hpath : p.generate_path = [SubPath.polyline p.lyonPoints p.closed] := by
    simp [Polygon.generate_path, addPolygon, hne]
  refine ⟨hpath, ?_, ?_, ?_, ?_⟩
  · simp [hpath, pathVertices, SubPath.vertices]
  · simp [hpath, SubPath.isClosed]
  · simp [hpath, pathEdges, SubPath.edges, polylineEdges]
  · intro h2
    refine closingEdge_pair p.lyonPoints hne ?_
    simpa [Polygon.lyonPoints] using h2

/-- Witness for C3 at the Polygon of the spec example, points
(0,0), (1,0), (1,1) with closed = true. -/
theorem polygon_path_single_contour_witness :
    (Polygon.mk [⟨0, 0⟩, ⟨1, 0⟩, ⟨1, 1⟩] true).points ≠ [] ∧
    (Polygon.mk [⟨0, 0⟩, ⟨1, 0⟩, ⟨1, 1⟩] true).generate_path =
      [SubPath.polyline [⟨0, 0⟩, ⟨1, 0⟩, ⟨1, 1⟩] true] ∧
    closingEdge (Polygon.mk [⟨0, 0⟩, ⟨1, 0⟩, ⟨1, 1⟩] true).lyonPoints =
      [(⟨1, 1⟩, ⟨0, 0⟩)] :=
  ⟨by simp,
   (polygon_path_single_contour ⟨[⟨0, 0⟩, ⟨1, 0⟩, ⟨1, 1⟩], true⟩ (by simp)).1,
   by
    rw [(polygon_path_single_contour ⟨[⟨0, 0⟩, ⟨1, 0⟩, ⟨1, 1⟩], true⟩
      (by simp)).2.2.2.2 (by simp)]
    rfl⟩

/-- C4: For every Circle (any radius, any center), the generated path is a
single closed, positively-wound circular contour of the given radius
centered at the given center point. -/
theorem circle_path_single_positive_contour (c : Circle) :
    c.generate_path =
      [SubPath.circle ⟨c.center.x, c.center.y⟩ c.radius Winding.positive] ∧
    c.generate_path.length = 1 ∧
    (∀ s ∈ c.generate_path, s.isClosed = true) := by
  refine ⟨rfl, rfl, ?_⟩
  intro s hs
  simp only [Circle.generate_path, addCircle, List.mem_singleton] at hs
  simp [hs, SubPath.isClosed]

/-- C5: For every Ellipse (any radii vector, any center), the generated
path is a single closed, positively-wound elliptical contour using the two
radii as independent axis scales, with rotation angle exactly zero,
centered at the given center point. -/
theorem ellipse_path_single_positive_contour (e : Ellipse) :
    e.generate_path =
      [SubPath.ellipse ⟨e.center.x, e.center.y⟩ e.radii 0
        Winding.positive] ∧
    e.generate_path.length = 1 ∧
    (∀ s ∈ e.generate_path, s.isClosed = true) := by
  refine ⟨rfl, rfl, ?_⟩
  intro s hs
  simp only [Ellipse.generate_path, addEllipse, List.mem_singleton] at hs
  simp [hs, SubPath.isClosed]

/-- C6: path generation is total and performs no input validation: every
Rectangle, including zero or negative width or height, yields one closed
4-vertex contour; every Circle and Ellipse, including zero radius, yields
one contour; every Polygon, including those with fewer than 3 points,
yields its points as a path without alteration; concrete degenerate inputs
yield the expected degenerate paths rather than an error. -/
theorem generation_total_no_validation :
    (∀ r : Rectangle, r.generate_path = [SubPath.polyline r.corners true] ∧
      r.corners.length = 4) ∧
    (∀ c : Circle, c.generate_path.length = 1) ∧
    (∀ e : Ellipse, e.generate_path.length = 1) ∧
    (∀ p : Polygon, p.generate_path =
      if p.points.isEmpty then []
      else [SubPath.polyline p.lyonPoints p.closed]) ∧
    (Rectangle.mk 0 0 RectangleOrigin.Center).generate_path =
      [SubPath.polyline [⟨0, 0⟩, ⟨0, 0⟩, ⟨0, 0⟩, ⟨0, 0⟩] true] ∧
    (Rectangle.mk (-3) 2 RectangleOrigin.BottomLeft).generate_path =
      [SubPath.polyline [⟨0, 0⟩, ⟨-3, 0⟩, ⟨-3, 2⟩, ⟨0, 2⟩] true] ∧
    (Circle.mk 0 Vec2.zero).generate_path =
      [SubPath.circle ⟨0, 0⟩ 0 Winding.positive] ∧
    (Polygon.mk [Vec2.zero, Vec2.one] true).generate_path =
      [SubPath.polyline [⟨0, 0⟩, ⟨1, 1⟩] true] := by
  refine ⟨fun r => ⟨rfl, rfl⟩, fun c => rfl, fun e => rfl, ?_, ?_, ?_, rfl,
    rfl⟩
  · intro p
    cases hp : p.points with
    | nil =>
        simp [Polygon.generate_path, Polygon.lyonPoints, addPolygon, hp]
    | cons a as =>
        simp [Polygon.generate_path, Polygon.lyonPoints, addPolygon, hp]
  · norm_num [Rectangle.generate_path, Rectangle.corners,
      Rectangle.originPoint, addRectangle, addPolygon, Point.mk.injEq]
  · norm_num [Rectangle.generate_path, Rectangle.corners,
      Rectangle.originPoint, addRectangle, addPolygon, Point.mk.injEq]

/-- C7: for the Rectangle with width 2, height 4 and origin Center, the
computed origin point is (-1, -2) and the generated contour visits the
corners (-1,-2), (1,-2), (1,2), (-1,2) in that order, a tour with positive
signed area. -/
theorem rectangle_2_4_center_concrete :
    (Rectangle.mk 2 4 RectangleOrigin.Center).originPoint = ⟨-1, -2⟩ ∧
    (Rectangle.mk 2 4 RectangleOrigin.Center).generate_path =
      [SubPath.polyline [⟨-1, -2⟩, ⟨1, -2⟩, ⟨1, 2⟩, ⟨-1, 2⟩] true] ∧
    0 < signedArea2 [⟨-1, -2⟩, ⟨1, -2⟩, ⟨1, 2⟩, ⟨-1, 2⟩] := by
  refine ⟨?_, ?_, ?_⟩
  · norm_num [Rectangle.originPoint, Point.mk.injEq]
  · norm_num [Rectangle.generate_path, Rectangle.originPoint, addRectangle,
      addPolygon, Point.mk.injEq]
  · norm_num [signedArea2, closingEdge, cross, List.zip]

/-- C8: path generation is pure and deterministic.  For every shape
variant, running the sprite generator a second time — with the asset store
state left by the first run — yields the same sprite bundle, whose mesh is
always the tessellation of the shape path; and two shape values agreeing
on all their fields generate identical paths.  The shape itself is an
immutable input (the source takes it by shared reference), so generation
cannot alter its parameters. -/
theorem generation_pure_deterministic
    (tessellator : Tessellator) (material : MaterialHandle)
    (meshes : List Buffers) (mode : TessellationMode)
    (transform : Transform) :
    (∀ r : Rectangle,
      (r.generate_sprite material
          (r.generate_sprite material meshes tessellator mode transform).2
          tessellator mode transform).1 =
        (r.generate_sprite material meshes tessellator mode transform).1 ∧
      (r.generate_sprite material meshes tessellator mode transform).1.mesh =
        tessellator r.generate_path mode) ∧
    (∀ c : Circle,
      (c.generate_sprite material
          (c.generate_sprite material meshes tessellator mode transform).2
          tessellator mode transform).1 =
        (c.generate_sprite material meshes tessellator mode transform).1 ∧
      (c.generate_sprite material meshes tessellator mode transform).1.mesh =
        tessellator c.generate_path mode) ∧
    (∀ e : Ellipse,
      (e.generate_sprite material
          (e.generate_sprite material meshes tessellator mode transform).2
          tessellator mode transform).1 =
        (e.generate_sprite material meshes tessellator mode transform).1 ∧
      (e.generate_sprite material meshes tessellator mode transform).1.mesh =
        tessellator e.generate_path mode) ∧
    (∀ p : Polygon,
      (p.generate_sprite material
          (p.generate_sprite material meshes tessellator mode transform).2
          tessellator mode transform).1 =
        (p.generate_sprite material meshes tessellator mode transform).1 ∧
      (p.generate_sprite material meshes tessellator mode transform).1.mesh =
        tessellator p.generate_path mode) ∧
    (∀ r₁ r₂ : Rectangle, r₁.width = r₂.width → r₁.height = r₂.height →
      r₁.origin = r₂.origin → r₁.generate_path = r₂.generate_path) ∧
    (∀ c₁ c₂ : Circle, c₁.radius = c₂.radius → c₁.center = c₂.center →
      c₁.generate_path = c₂.generate_path) ∧
    (∀ e₁ e₂ : Ellipse, e₁.radii = e₂.radii → e₁.center = e₂.center →
      e₁.generate_path = e₂.generate_path) ∧
    (∀ p₁ p₂ : Polygon, p₁.points = p₂.points → p₁.closed = p₂.closed →
      p₁.generate_path = p₂.generate_path) := by
  refine ⟨fun r => ⟨rfl, rfl⟩, fun c => ⟨rfl, rfl⟩, fun e => ⟨rfl, rfl⟩,
    fun p => ⟨rfl, rfl⟩, ?_, ?_, ?_, ?_⟩
  · intro r₁ r₂ hw hh ho
    obtain ⟨w₁, h₁, o₁⟩ := r₁
    obtain ⟨w₂, h₂, o₂⟩ := r₂
    simp_all
  · intro c₁ c₂ hr hc
    obtain ⟨r₁, z₁⟩ := c₁
    obtain ⟨r₂, z₂⟩ := c₂
    simp_all
  · intro e₁ e₂ hr hc
    obtain ⟨r₁, z₁⟩ := e₁
    obtain ⟨r₂, z₂⟩ := e₂
    simp_all
  · intro p₁ p₂ hp hc
    obtain ⟨q₁, b₁⟩ := p₁
    obtain ⟨q₂, b₂⟩ := p₂
    simp_all

/-- Witness for C8: two sequential runs on the Rectangle of width 2,
height 4, origin Center with a concrete tessellator yield the same sprite
bundle, and two field-equal Polygon values generate the same path. -/
theorem generation_pure_deterministic_witness :
    ((Rectangle.mk 2 4 RectangleOrigin.Center).generate_sprite 0
        ((Rectangle.mk 2 4 RectangleOrigin.Center).generate_sprite 0 []
          (fun p _ => ⟨pathVertices p, []⟩) TessellationMode.fill
          ⟨Vec2.zero⟩).2
        (fun p _ => ⟨pathVertices p, []⟩) TessellationMode.fill
        ⟨Vec2.zero⟩).1 =
      ((Rectangle.mk 2 4 RectangleOrigin.Center).generate_sprite 0 []
        (fun p _ => ⟨pathVertices p, []⟩) TessellationMode.fill
        ⟨Vec2.zero⟩).1 ∧
    (Polygon.mk [Vec2.zero] true).generate_path =
      (Polygon.mk [Vec2.zero] true).generate_path :=
  ⟨((generation_pure_deterministic (fun p _ => ⟨pathVertices p, []⟩) 0 []
      TessellationMode.fill ⟨Vec2.zero⟩).1 ⟨2, 4, .Center⟩).1,
   (generation_pure_deterministic (fun p _ => ⟨pathVertices p, []⟩) 0 []
      TessellationMode.fill ⟨Vec2.zero⟩).2.2.2.2.2.2.2
     ⟨[Vec2.zero], true⟩ ⟨[Vec2.zero], true⟩ rfl rfl⟩

/-- C9: the default-constructed shapes have exactly the documented values:
Rectangle width 1, height 1, origin Center — a unit square centered at the
local origin; Circle radius 1 centered at (0,0); Ellipse radii (1,1)
centered at (0,0); Polygon with an empty point list and closed = true,
whose generated path has no edges. -/
theorem default_shape_values :
    Rectangle.default = ⟨1, 1, RectangleOrigin.Center⟩ ∧
    Circle.default = ⟨1, ⟨0, 0⟩⟩ ∧
    Ellipse.default = ⟨⟨1, 1⟩, ⟨0, 0⟩⟩ ∧
    Polygon.default = ⟨[], true⟩ ∧
    Rectangle.default.generate_path =
      [SubPath.polyline
        [⟨-(1 / 2), -(1 / 2)⟩, ⟨1 / 2, -(1 / 2)⟩, ⟨1 / 2, 1 / 2⟩,
         ⟨-(1 / 2), 1 / 2⟩] true] ∧
    Polygon.default.generate_path = [] ∧
    pathEdges Polygon.default.generate_path = [] := by
  refine ⟨rfl, rfl, rfl, rfl, ?_, rfl, rfl⟩
  norm_num [Rectangle.default, RectangleOrigin.default,
    Rectangle.generate_path, Rectangle.originPoint, addRectangle,
    addPolygon, Point.mk.injEq]

/-- C10: the generated path depends only on the shape fields.  For every
shape, material handle, asset-store state, tessellation mode and
transform, the mesh of the generated sprite is the tessellation of the
shape path `generate_path`, a value computed from the shape fields alone —
so varying material, mode, transform or store state never changes the path
handed to the tessellator. -/
theorem path_depends_only_on_shape_fields :
    (∀ (r : Rectangle) (tessellator : Tessellator)
        (material : MaterialHandle) (meshes : List Buffers)
        (mode : TessellationMode) (transform : Transform),
      (r.generate_sprite material meshes tessellator mode transform).1.mesh =
        tessellator r.generate_path mode) ∧
    (∀ (c : Circle) (tessellator : Tessellator)
        (material : MaterialHandle) (meshes : List Buffers)
        (mode : TessellationMode) (transform : Transform),
      (c.generate_sprite material meshes tessellator mode transform).1.mesh =
        tessellator c.generate_path mode) ∧
    (∀ (e : Ellipse) (tessellator : Tessellator)
        (material : MaterialHandle) (meshes : List Buffers)
        (mode : TessellationMode) (transform : Transform),
      (e.generate_sprite material meshes tessellator mode transform).1.mesh =
        tessellator e.generate_path mode) ∧
    (∀ (p : Polygon) (tessellator : Tessellator)
        (material : MaterialHandle) (meshes : List Buffers)
        (mode : TessellationMode) (transform : Transform),
      (p.generate_sprite material meshes tessellator mode transform).1.mesh =
        tessellator p.generate_path mode) :=
  ⟨fun _ _ _ _ _ _ => rfl, fun _ _ _ _ _ _ => rfl, fun _ _ _ _ _ _ => rfl,
   fun _ _ _ _ _ _ => rfl⟩

end BevyLyon
